import Mathlib

/-
  Verification of the nrf24 Go driver (michcald/nrf24, src/nrf24.go).

  Shallow embedding: every driver operation is a pure function of
  - a bus oracle `Bus` giving, for each SPI transfer index, the bytes the
    device shifts back (or `none` for a failed transfer, modelling a
    `conn.Tx` error), and
  - a `DevState` recording the number of transfers so far and the trace of
    externally visible actions (SPI transfers, CE line changes, sleeps).

  Register state of the radio lives behind the oracle: reads take their
  value from the oracle response, writes appear in the trace.
-/

namespace NRF24

/-- A bus oracle: transfer index and outgoing bytes to the optional incoming
bytes. `none` models a failed `conn.Tx` call. -/
abbrev Bus : Type := Nat → List Nat → Option (List Nat)

/-- Externally visible actions of the driver. -/
inductive Action where
  | spi (tx : List Nat)
  | ce (level : Bool)
  | sleepUs (us : Nat)
deriving DecidableEq

/-- Driver-side state: number of SPI transfers performed and the action
trace, in order. -/
structure DevState where
  nCalls : Nat
  trace : List Action
deriving DecidableEq

def DevState.init : DevState := ⟨0, []⟩

/- Register addresses and SPI opcodes, from the constant blocks of
src/nrf24.go. -/
def rCONFIG : Nat := 0x00
def rEN_AA : Nat := 0x01
def rEN_RXADDR : Nat := 0x02
def rSETUP_AW : Nat := 0x03
def rSETUP_RETR : Nat := 0x04
def rRF_CH : Nat := 0x05
def rRF_SETUP : Nat := 0x06
def rSTATUS : Nat := 0x07
def rOBSERVE_TX : Nat := 0x08
def rRPD : Nat := 0x09
def rRX_ADDR_P0 : Nat := 0x0A
def rRX_ADDR_P1 : Nat := 0x0B
def rTX_ADDR : Nat := 0x10
def rRX_PW_P0 : Nat := 0x11
def rRX_PW_P1 : Nat := 0x12
def rDYNPD : Nat := 0x1C
def rFEATURE : Nat := 0x1D

def wREGISTER : Nat := 0x20
def cR_RX_PAYLOAD : Nat := 0x61
def cW_TX_PAYLOAD : Nat := 0xA0
def cW_TX_PAYLOAD_NOACK : Nat := 0xB0
def cFLUSH_TX : Nat := 0xE1
def cFLUSH_RX : Nat := 0xE2
def cNOP : Nat := 0xFF
def cR_RX_PL_WID : Nat := 0x60

/-- The `rx` buffer Go allocates has the length of the outgoing data; the
bus driver fills a prefix (all of it on real hardware, a prefix in the
repository's mock) and the rest stays zero. Values are bytes. -/
def rxFill (n : Nat) (resp : List Nat) : List Nat :=
  ((resp.take n).map (fun b => b % 256)) ++ List.replicate (n - resp.length) 0

/-- Status byte and payload bytes a transfer returns, as in `spiTransfer`:
a failed `conn.Tx` yields `(0, nil)`, otherwise the first shifted byte is
the status and the rest the data. -/
def spiResponse (bus : Bus) (i : Nat) (data : List Nat) : Nat × List Nat :=
  match bus i data with
  | none => (0, [])
  | some resp =>
    match rxFill data.length resp with
    | [] => (0, [])
    | b :: rest => (b, rest)

/-- `spiTransfer`: one full-duplex exchange; the attempt is recorded in the
trace whether or not the bus fails, and is never retried. -/
def spiTransfer (bus : Bus) (s : DevState) (data : List Nat) :
    (Nat × List Nat) × DevState :=
  (spiResponse bus s.nCalls data, ⟨s.nCalls + 1, s.trace ++ [Action.spi data]⟩)

def writeRegister (bus : Bus) (s : DevState) (reg v : Nat) : DevState :=
  (spiTransfer bus s [wREGISTER ||| reg, v]).2

/-- The byte `readRegister` returns for transfer index `i`: second byte of
the exchange, or 0 when the bus failed or returned nothing. -/
def regValue (bus : Bus) (i reg : Nat) : Nat :=
  match (spiResponse bus i [reg, cNOP]).2 with
  | [] => 0
  | b :: _ => b

def readRegister (bus : Bus) (s : DevState) (reg : Nat) : Nat × DevState :=
  let r := spiTransfer bus s [reg, cNOP]
  (match r.1.2 with
   | [] => 0
   | b :: _ => b,
   r.2)

def writeRegisterN (bus : Bus) (s : DevState) (reg : Nat) (data : List Nat) :
    DevState :=
  (spiTransfer bus s ((wREGISTER ||| reg) :: data)).2

def flushTX (bus : Bus) (s : DevState) : DevState :=
  (spiTransfer bus s [cFLUSH_TX]).2

def flushRX (bus : Bus) (s : DevState) : DevState :=
  (spiTransfer bus s [cFLUSH_RX]).2

/-- `clearStatus` writes RX_DR|TX_DS|MAX_RT (0x70) to STATUS. -/
def clearStatus (bus : Bus) (s : DevState) : DevState :=
  writeRegister bus s rSTATUS 0x70

def setCE (s : DevState) (level : Bool) : DevState :=
  ⟨s.nCalls, s.trace ++ [Action.ce level]⟩

def sleep (s : DevState) (us : Nat) : DevState :=
  ⟨s.nCalls, s.trace ++ [Action.sleepUs us]⟩

/-- Driver configuration, the fields of `Config` the core logic uses
(logger and pin/bus paths are hardware plumbing outside the model). -/
structure Config where
  ChannelNumber : Nat
  RxAddr : List Nat
  EnableDynamicPayload : Bool
  PayloadSize : Nat
  EnableAutoAck : Bool
  DataRate : Nat
  PALevel : Nat
  AutoRetransmitDelay : Nat
  AutoRetransmitCount : Nat
  AddressWidth : Nat
  CRCLength : Nat
deriving DecidableEq

def dataRate250kbps : Nat := 0
def dataRate1mbps : Nat := 1
def dataRate2mbps : Nat := 2
def paLevelMax : Nat := 3
def crcLength16 : Nat := 2

/-- The default-application steps at the top of `newDriver`. The source
applies them in sequence; each step updates only its own field from a test
of that same field, so they combine into one record update. -/
def applyDefaults (c : Config) : Config :=
  { c with
    PayloadSize :=
      if c.EnableDynamicPayload = false ∧ (c.PayloadSize = 0 ∨ 32 < c.PayloadSize)
      then 32 else c.PayloadSize,
    EnableAutoAck := if c.EnableAutoAck = false then true else c.EnableAutoAck,
    DataRate := if c.DataRate = 0 then dataRate250kbps else c.DataRate,
    PALevel := if c.PALevel = 0 then paLevelMax else c.PALevel,
    AutoRetransmitDelay :=
      if c.AutoRetransmitDelay = 0 then 250 else c.AutoRetransmitDelay,
    AutoRetransmitCount :=
      if c.AutoRetransmitCount = 0 then 3 else c.AutoRetransmitCount,
    AddressWidth := if c.AddressWidth = 0 then 5 else c.AddressWidth,
    CRCLength := if c.CRCLength = 0 then crcLength16 else c.CRCLength }

/-- SETUP_RETR value: `ard := (delay/250 - 1) & 0x0F` in uint16 arithmetic
(underflow wraps at 2^16 when `delay < 250`), `arc := count & 0x0F`. -/
def setupRetrValue (delay count : Nat) : Nat :=
  let ard := ((delay / 250 + 65535) % 65536) &&& 0x0F
  let arc := count &&& 0x0F
  (ard <<< 4) ||| arc

/-- Data-rate bits of RF_SETUP per the switch in `newDriver` and
`updateRFSetup`: 1 Mbps leaves them clear, 2 Mbps sets RF_DR_HIGH (bit 3),
250 kbps sets RF_DR_LOW (bit 5), any other value falls through. -/
def rateBits : Nat → Nat
  | 1 => 0x00
  | 2 => 0x08
  | 0 => 0x20
  | _ => 0

/-- PA bits of RF_SETUP: value 0..3 shifted into bits 2:1, any other value
falls through the switch. -/
def paBits : Nat → Nat
  | 0 => 0
  | 1 => 1 <<< 1
  | 2 => 2 <<< 1
  | 3 => 3 <<< 1
  | _ => 0

def rfSetupValue (rate pa : Nat) : Nat := rateBits rate ||| paBits pa

/-- CONFIG value written at init: PWR_UP|PRIM_RX plus CRC bits. -/
def configValue (crc : Nat) : Nat :=
  if crc = 1 then 0x03 ||| 0x08
  else if crc = 2 then 0x03 ||| 0x08 ||| 0x04
  else 0x03

inductive InitError where
  | invalidAddressWidth
  | invalidChannel
deriving DecidableEq

/-- `newDriver` (with no IRQ pin, as in the repository's own tests):
defaults, validation, then the hardware-initialization write sequence. -/
def newDriver (bus : Bus) (c0 : Config) : Except InitError (Config × DevState) :=
  let c := applyDefaults c0
  if c.AddressWidth < 3 ∨ 5 < c.AddressWidth then
    Except.error InitError.invalidAddressWidth
  else if 124 < c.ChannelNumber then
    Except.error InitError.invalidChannel
  else
    let s := DevState.init
    let s := setCE s false     -- dev.ce.Out(gpio.Low)
    let s := setCE s false     -- dev.setCE(false)
    let s := writeRegister bus s rCONFIG 0
    let s := clearStatus bus s
    let s := flushTX bus s
    let s := flushRX bus s
    let s := writeRegister bus s rCONFIG (configValue c.CRCLength)
    let s := sleep s 5000
    let s := writeRegister bus s rRF_CH c.ChannelNumber
    let s := writeRegister bus s rSETUP_AW (c.AddressWidth - 2)
    let s := writeRegister bus s rSETUP_RETR
      (setupRetrValue c.AutoRetransmitDelay c.AutoRetransmitCount)
    let s := writeRegister bus s rRF_SETUP (rfSetupValue c.DataRate c.PALevel)
    let s := if c.EnableAutoAck then writeRegister bus s rEN_AA 0x03
             else writeRegister bus s rEN_AA 0
    let s := writeRegister bus s rEN_RXADDR 0x03
    let s := writeRegisterN bus s rRX_ADDR_P1 c.RxAddr
    let s :=
      if c.EnableDynamicPayload then
        let s := writeRegister bus s rFEATURE 0x07
        writeRegister bus s rDYNPD 0x03
      else
        let s := writeRegister bus s rFEATURE 0x01
        let s := writeRegister bus s rDYNPD 0
        let s := writeRegister bus s rRX_PW_P0 c.PayloadSize
        writeRegister bus s rRX_PW_P1 c.PayloadSize
    Except.ok (c, setCE s true)

def startListening (bus : Bus) (s : DevState) : DevState :=
  let s := setCE s false
  let r := readRegister bus s rCONFIG
  let s := writeRegister bus r.2 rCONFIG (r.1 ||| 0x01)
  let s := setCE s true
  let s := sleep s 130
  let s := clearStatus bus s
  flushRX bus s

def stopListening (bus : Bus) (s : DevState) : DevState :=
  let s := setCE s false
  let r := readRegister bus s rCONFIG
  writeRegister bus r.2 rCONFIG (r.1 &&& 0xFE)

/-- `setTargetAddress`: CE low, write TX_ADDR, mirror into RX_ADDR_P0,
sleep 1 ms. -/
def setTargetAddress (bus : Bus) (s : DevState) (addr : List Nat) : DevState :=
  let s := setCE s false
  let s := writeRegisterN bus s rTX_ADDR addr
  let s := writeRegisterN bus s rRX_ADDR_P0 addr
  sleep s 1000

inductive WriteResult where
  | ok
  | maxRetries
  | timeout
deriving DecidableEq

/-- Fixed-payload framing: `make([]byte, PayloadSize)` then `copy`. -/
def fixedPayload (size : Nat) (data : List Nat) : List Nat :=
  data.take size ++ List.replicate (size - data.length) 0

/-- The part of `write` before the supervision loop: stop listening, load
the TX payload with the chosen opcode, pulse CE for 15 µs. -/
def loadAndPulse (bus : Bus) (cfg : Config) (s : DevState) (data : List Nat)
    (noAck : Bool) : DevState :=
  let s := stopListening bus s
  let op := if noAck then cW_TX_PAYLOAD_NOACK else cW_TX_PAYLOAD
  let cmd := if cfg.EnableDynamicPayload then op :: data
             else op :: fixedPayload cfg.PayloadSize data
  let s := (spiTransfer bus s cmd).2
  let s := setCE s true
  let s := sleep s 15
  setCE s false

/-- The supervision loop of `write`: while the timeout (µs) has not
elapsed, poll STATUS; on TX_DS or MAX_RT clear STATUS and finish (flushing
TX and failing on MAX_RT); otherwise sleep 1 ms and repeat; once the
timeout elapses, clear STATUS, flush TX and fail. `fuel` only bounds the
recursion; callers pass enough that it never runs out. -/
def pollLoop (bus : Bus) (t : Nat) : Nat → Nat → DevState → WriteResult × DevState
  | 0, _, s => (WriteResult.timeout, flushTX bus (clearStatus bus s))
  | fuel + 1, elapsed, s =>
    if t ≤ elapsed then
      (WriteResult.timeout, flushTX bus (clearStatus bus s))
    else
      let r := readRegister bus s rSTATUS
      if (r.1 &&& 0x30) != 0 then
        let s2 := clearStatus bus r.2
        if (r.1 &&& 0x10) != 0 then (WriteResult.maxRetries, flushTX bus s2)
        else (WriteResult.ok, s2)
      else
        pollLoop bus t fuel (elapsed + 1000) (sleep r.2 1000)

/-- Timeout of the supervision loop:
`AutoRetransmitDelay × AutoRetransmitCount` µs plus a 50 ms buffer. -/
def timeoutUsOf (cfg : Config) : Nat :=
  cfg.AutoRetransmitDelay * cfg.AutoRetransmitCount + 50000

def write (bus : Bus) (cfg : Config) (s : DevState) (data : List Nat)
    (noAck : Bool) : WriteResult × DevState :=
  let s := loadAndPulse bus cfg s data noAck
  pollLoop bus (timeoutUsOf cfg) (timeoutUsOf cfg) 0 s

inductive TxError where
  | payloadTooLarge
  | maxRetries
  | timeout
deriving DecidableEq

def txLimit (cfg : Config) : Nat :=
  if cfg.EnableDynamicPayload then 32 else cfg.PayloadSize

instance : DecidableEq (Except TxError Unit) := fun a b =>
  match a, b with
  | Except.ok (), Except.ok () => isTrue rfl
  | Except.error x, Except.error y =>
    if h : x = y then isTrue (by rw [h])
    else isFalse (fun hc => h (by injection hc))
  | Except.ok _, Except.error _ => isFalse (fun hc => Except.noConfusion hc)
  | Except.error _, Except.ok _ => isFalse (fun hc => Except.noConfusion hc)

/-- Common body of `Transmit` (noAck = false) and `TransmitNoAck`
(noAck = true); the two Go functions are textually identical apart from
the flag passed to `write`. -/
def transmitWith (noAck : Bool) (bus : Bus) (cfg : Config) (s : DevState)
    (destAddr : List Nat) (p : List Nat) : Except TxError Unit × DevState :=
  let s := stopListening bus s
  if txLimit cfg < p.length then
    (Except.error TxError.payloadTooLarge, s)
  else
    let s := setTargetAddress bus s destAddr
    match write bus cfg s p noAck with
    | (WriteResult.ok, s) => (Except.ok (), startListening bus s)
    | (WriteResult.maxRetries, s) =>
        (Except.error TxError.maxRetries, startListening bus s)
    | (WriteResult.timeout, s) =>
        (Except.error TxError.timeout, startListening bus s)

def Transmit (bus : Bus) (cfg : Config) (s : DevState) (destAddr p : List Nat) :
    Except TxError Unit × DevState :=
  transmitWith false bus cfg s destAddr p

def TransmitNoAck (bus : Bus) (cfg : Config) (s : DevState) (destAddr p : List Nat) :
    Except TxError Unit × DevState :=
  transmitWith true bus cfg s destAddr p

/-- `Ping`: set the target, send a single zero byte, downgrade the result
to a boolean. -/
def Ping (bus : Bus) (cfg : Config) (s : DevState) (addr : List Nat) :
    Bool × DevState :=
  let s := setTargetAddress bus s addr
  match write bus cfg s [0x00] false with
  | (WriteResult.ok, s) => (true, s)
  | (WriteResult.maxRetries, s) => (false, s)
  | (WriteResult.timeout, s) => (false, s)

def GetStatus (bus : Bus) (s : DevState) : Nat × DevState :=
  readRegister bus s rSTATUS

/-- `available`: RX FIFO is non-empty iff STATUS bits 3:1 differ from 0b111. -/
def available (bus : Bus) (s : DevState) : Bool × DevState :=
  let r := readRegister bus s rSTATUS
  (((r.1 >>> 1) &&& 0x07) != 7, r.2)

def getDynamicPayloadSize (bus : Bus) (s : DevState) : Nat × DevState :=
  let r := spiTransfer bus s [cR_RX_PL_WID, cNOP]
  match r.1.2 with
  | [] => (0, r.2)
  | b :: _ => if 32 < b then (0, flushRX bus r.2) else (b, r.2)

def readDynamic (bus : Bus) (s : DevState) : Option (List Nat) × DevState :=
  let a := available bus s
  if !a.1 then (none, a.2)
  else
    let sz := getDynamicPayloadSize bus a.2
    if sz.1 = 0 then (none, sz.2)
    else
      let r := spiTransfer bus sz.2 (cR_RX_PAYLOAD :: List.replicate sz.1 cNOP)
      (some r.1.2, clearStatus bus r.2)

def readFixedPayload (bus : Bus) (cfg : Config) (s : DevState) :
    Option (List Nat) × DevState :=
  let a := available bus s
  if !a.1 then (none, a.2)
  else
    let r := spiTransfer bus a.2 (cR_RX_PAYLOAD :: List.replicate cfg.PayloadSize cNOP)
    (some r.1.2, clearStatus bus r.2)

def Receive (bus : Bus) (cfg : Config) (s : DevState) :
    Option (List Nat) × DevState :=
  if cfg.EnableDynamicPayload then readDynamic bus s
  else readFixedPayload bus cfg s

inductive ArgError where
  | invalidChannel
  | invalidRetrDelay
  | invalidRetrCount
  | invalidAddressWidth
deriving DecidableEq

def SetChannel (bus : Bus) (cfg : Config) (s : DevState) (channel : Nat) :
    Except ArgError Config × DevState :=
  if 124 < channel then (Except.error ArgError.invalidChannel, s)
  else
    ({ cfg with ChannelNumber := channel } |> Except.ok,
     writeRegister bus s rRF_CH channel)

/-- `updateRFSetup` writes RF_SETUP from the (already updated) config. -/
def updateRFSetup (bus : Bus) (cfg : Config) (s : DevState) : DevState :=
  writeRegister bus s rRF_SETUP (rfSetupValue cfg.DataRate cfg.PALevel)

def SetDataRate (bus : Bus) (cfg : Config) (s : DevState) (rate : Nat) :
    Except ArgError Config × DevState :=
  let cfg2 := { cfg with DataRate := rate }
  (Except.ok cfg2, updateRFSetup bus cfg2 s)

def SetPALevel (bus : Bus) (cfg : Config) (s : DevState) (level : Nat) :
    Except ArgError Config × DevState :=
  let cfg2 := { cfg with PALevel := level }
  (Except.ok cfg2, updateRFSetup bus cfg2 s)

def SetAutoRetransmit (bus : Bus) (cfg : Config) (s : DevState)
    (delay count : Nat) : Except ArgError Config × DevState :=
  if delay < 250 ∨ 4000 < delay ∨ delay % 250 ≠ 0 then
    (Except.error ArgError.invalidRetrDelay, s)
  else if 15 < count then
    (Except.error ArgError.invalidRetrCount, s)
  else
    ({ cfg with AutoRetransmitDelay := delay, AutoRetransmitCount := count }
       |> Except.ok,
     writeRegister bus s rSETUP_RETR (setupRetrValue delay count))

def SetAddressWidth (bus : Bus) (cfg : Config) (s : DevState) (width : Nat) :
    Except ArgError Config × DevState :=
  if width < 3 ∨ 5 < width then (Except.error ArgError.invalidAddressWidth, s)
  else
    ({ cfg with AddressWidth := width } |> Except.ok,
     writeRegister bus s rSETUP_AW (width - 2))

/- Derived notions used to state the claims. -/

def statusReadCmd : List Nat := [rSTATUS, cNOP]
def clearStatusCmd : List Nat := [wREGISTER ||| rSTATUS, 0x70]
def widthCmd : List Nat := [cR_RX_PL_WID, cNOP]

/-- STATUS byte the supervision loop observes at transfer index `i`. -/
def pollStatus (bus : Bus) (i : Nat) : Nat := regValue bus i rSTATUS

/-- Payload-width byte an R_RX_PL_WID exchange returns at index `i`. -/
def widthValue (bus : Bus) (i : Nat) : Nat :=
  match (spiResponse bus i widthCmd).2 with
  | [] => 0
  | b :: _ => b

/-- Trace of `k` flagless polls: a STATUS read then a 1 ms sleep, `k` times. -/
def pollsTrace : Nat → List Action
  | 0 => []
  | k + 1 => Action.spi statusReadCmd :: Action.sleepUs 1000 :: pollsTrace k

/-- Number of STATUS polls the loop performs when no flag ever appears:
elapsed time walks 0, 1000, ... until it reaches `t`. -/
def numPolls (t elapsed : Nat) : Nat := (t - elapsed + 999) / 1000

/-- Index (among the next `k` polls starting at transfer `n`) of the first
STATUS byte with TX_DS or MAX_RT set. -/
def firstFlagged (bus : Bus) (n : Nat) : Nat → Option Nat
  | 0 => none
  | k + 1 =>
    if (pollStatus bus n &&& 0x30) != 0 then some 0
    else (firstFlagged bus (n + 1) k).map (fun j => j + 1)

/- Concrete instances used by witnesses and counterexamples. -/

/-- A bus on which every transfer succeeds and shifts back zeros. -/
def busZero : Bus := fun _ _ => some []

/-- A bus on which every transfer fails (conn.Tx error). -/
def failBus : Bus := fun _ _ => none

def isOkInit : Except InitError (Config × DevState) → Bool
  | Except.ok _ => true
  | Except.error _ => false

def okConfig : Except InitError (Config × DevState) → Config
  | Except.ok (cfg, _) => cfg
  | Except.error _ =>
      ⟨0, [], false, 0, false, 0, 0, 0, 0, 0, 0⟩

def okState : Except InitError (Config × DevState) → DevState
  | Except.ok (_, s) => s
  | Except.error _ => DevState.init

/-- The config the repository's own initialization test uses (channel 76,
all other knobs defaulted). -/
def c0 : Config :=
  ⟨76, [0xE7, 0xE7, 0xE7, 0xE7, 0xE7], false, 0, false, 0, 0, 0, 0, 0, 0⟩

/-- c0 after default application: payload 32, auto-ack on, 250 kbps, PA max,
delay 250, count 3, width 5, CRC16. -/
def cfg0 : Config := applyDefaults c0

/-- Valid except for an auto-retransmit count of 16 (> 15). -/
def cBadCount : Config := ⟨76, [1, 2, 3, 4, 5], false, 32, true, 1, 3, 250, 16, 5, 2⟩

/-- Valid except for an auto-retransmit delay of 300 µs (not a multiple of 250). -/
def cBadDelay : Config := ⟨76, [1, 2, 3, 4, 5], false, 32, true, 1, 3, 300, 3, 5, 2⟩

/-- Static payload mode with PayloadSize 0 (out of range). -/
def cPS0 : Config := ⟨76, [1, 2, 3, 4, 5], false, 0, true, 1, 3, 250, 3, 5, 2⟩

/-- Dynamic payload mode with PayloadSize 77 (left untouched by defaults). -/
def cDyn77 : Config := ⟨76, [1, 2, 3, 4, 5], true, 77, true, 1, 3, 250, 3, 5, 2⟩

def addr15 : List Nat := [1, 2, 3, 4, 5]

/-- A 33-byte payload, above every possible limit. -/
def p33 : List Nat := List.replicate 33 1

/-- STATUS reads back 0x0E: RX_P_NO = 0b111, RX FIFO empty. -/
def busEmpty : Bus := fun _ _ => some [0, 0x0E]

/-- STATUS says data ready on pipe 0; R_RX_PL_WID reports width 77 (> 32). -/
def busBigW : Bus := fun i _ => if i = 0 then some [0, 0x40] else some [0, 77]

/-- STATUS says data ready on pipe 0; R_RX_PL_WID reports width 0. -/
def busW0 : Bus := fun i _ => if i = 0 then some [0, 0x40] else some [0, 0]

/-- STATUS says data ready; width 5; payload bytes 104 101 108 108 111. -/
def busGood : Bus := fun i _ =>
  if i = 0 then some [0x40, 0x40]
  else if i = 1 then some [0x40, 5]
  else some [0x40, 104, 101, 108, 108, 111]

/-- Explicit initialization trace of `newDriver` on a post-default config
`c` that passes validation. The trace does not depend on the bus: the
constructor only writes. -/
def initTrace (c : Config) : List Action :=
  [Action.ce false, Action.ce false,
   Action.spi [wREGISTER ||| rCONFIG, 0],
   Action.spi clearStatusCmd,
   Action.spi [cFLUSH_TX], Action.spi [cFLUSH_RX],
   Action.spi [wREGISTER ||| rCONFIG, configValue c.CRCLength],
   Action.sleepUs 5000,
   Action.spi [wREGISTER ||| rRF_CH, c.ChannelNumber],
   Action.spi [wREGISTER ||| rSETUP_AW, c.AddressWidth - 2],
   Action.spi [wREGISTER ||| rSETUP_RETR,
     setupRetrValue c.AutoRetransmitDelay c.AutoRetransmitCount],
   Action.spi [wREGISTER ||| rRF_SETUP, rfSetupValue c.DataRate c.PALevel],
   Action.spi [wREGISTER ||| rEN_AA, if c.EnableAutoAck then 0x03 else 0],
   Action.spi [wREGISTER ||| rEN_RXADDR, 0x03],
   Action.spi ((wREGISTER ||| rRX_ADDR_P1) :: c.RxAddr)]
  ++ (if c.EnableDynamicPayload then
        [Action.spi [wREGISTER ||| rFEATURE, 0x07],
         Action.spi [wREGISTER ||| rDYNPD, 0x03]]
      else
        [Action.spi [wREGISTER ||| rFEATURE, 0x01],
         Action.spi [wREGISTER ||| rDYNPD, 0],
         Action.spi [wREGISTER ||| rRX_PW_P0, c.PayloadSize],
         Action.spi [wREGISTER ||| rRX_PW_P1, c.PayloadSize]])
  ++ [Action.ce true]

/-- Number of SPI transfers `newDriver` performs (post-default config). -/
def initCalls (c : Config) : Nat := if c.EnableDynamicPayload then 14 else 16

/- ------------------------------------------------------------------ -/
/- Helper lemmas -/
/- ------------------------------------------------------------------ -/

theorem applyDefaults_EnableAutoAck (c : Config) :
    (applyDefaults c).EnableAutoAck = true := by
  unfold applyDefaults
  cases h : c.EnableAutoAck <;> simp [h]

theorem applyDefaults_ChannelNumber (c : Config) :
    (applyDefaults c).ChannelNumber = c.ChannelNumber := by
  simp [applyDefaults]

theorem applyDefaults_EnableDynamicPayload (c : Config) :
    (applyDefaults c).EnableDynamicPayload = c.EnableDynamicPayload := by
  simp [applyDefaults]

theorem applyDefaults_PayloadSize (c : Config) :
    (applyDefaults c).PayloadSize =
      if c.EnableDynamicPayload = false ∧ (c.PayloadSize = 0 ∨ 32 < c.PayloadSize)
      then 32 else c.PayloadSize := by
  simp [applyDefaults]

/-- On a config passing validation, `newDriver` succeeds and produces
exactly the `initTrace` write sequence. -/
theorem newDriver_ok (bus : Bus) (c : Config)
    (h3 : 3 ≤ (applyDefaults c).AddressWidth)
    (h5 : (applyDefaults c).AddressWidth ≤ 5)
    (hch : (applyDefaults c).ChannelNumber ≤ 124) :
    newDriver bus c =
      Except.ok (applyDefaults c,
        ⟨initCalls (applyDefaults c), initTrace (applyDefaults c)⟩) := by
  unfold newDriver
  rw [if_neg (by omega), if_neg (by omega)]
  rw [applyDefaults_EnableAutoAck c]
  by_cases hd : (applyDefaults c).EnableDynamicPayload <;>
    simp [hd, initTrace, initCalls, writeRegister, writeRegisterN, spiTransfer,
      clearStatus, flushTX, flushRX, setCE, sleep, DevState.init,
      clearStatusCmd, applyDefaults_EnableAutoAck]

/-- A successful construction forces the validation to have passed and
pins down the returned config and trace. -/
theorem newDriver_ok_inv (bus : Bus) (c cfg : Config) (s : DevState)
    (h : newDriver bus c = Except.ok (cfg, s)) :
    cfg = applyDefaults c ∧ s = ⟨initCalls cfg, initTrace cfg⟩ ∧
    3 ≤ cfg.AddressWidth ∧ cfg.AddressWidth ≤ 5 ∧ cfg.ChannelNumber ≤ 124 := by
  by_cases h3 : (applyDefaults c).AddressWidth < 3 ∨ 5 < (applyDefaults c).AddressWidth
  · unfold newDriver at h
    rw [if_pos h3] at h
    exact absurd h (by simp)
  · by_cases hch : 124 < (applyDefaults c).ChannelNumber
    · unfold newDriver at h
      rw [if_neg h3, if_pos hch] at h
      exact absurd h (by simp)
    · push_neg at h3 hch
      rw [newDriver_ok bus c h3.1 (by omega) hch] at h
      injection h with h
      injection h with h1 h2
      subst h1
      exact ⟨rfl, h2.symm, h3.1, by omega, hch⟩

theorem and_fifteen (x : Nat) (h : x ≤ 15) : x &&& 15 = x := by
  interval_cases x <;> rfl

/-- For an in-range delay and count the masked SETUP_RETR encoding
coincides with `((delay/250 - 1) << 4) | count`. -/
theorem setupRetrValue_valid (delay count : Nat)
    (h1 : 250 ≤ delay) (h2 : delay ≤ 4000) (hc : count ≤ 15) :
    setupRetrValue delay count = ((delay / 250 - 1) <<< 4) ||| count := by
  unfold setupRetrValue
  have hq1 : 1 ≤ delay / 250 := by omega
  have hq2 : delay / 250 ≤ 16 := by omega
  have hmod : (delay / 250 + 65535) % 65536 = delay / 250 - 1 := by omega
  rw [hmod, and_fifteen count hc, and_fifteen (delay / 250 - 1) (by omega)]

theorem readRegister_eq (bus : Bus) (s : DevState) (reg : Nat) :
    readRegister bus s reg =
      (regValue bus s.nCalls reg,
       ⟨s.nCalls + 1, s.trace ++ [Action.spi [reg, cNOP]]⟩) := rfl

theorem numPolls_zero (t elapsed : Nat) (h : t ≤ elapsed) :
    numPolls t elapsed = 0 := by
  unfold numPolls
  omega

theorem numPolls_succ (t elapsed : Nat) (h : elapsed < t) :
    numPolls t elapsed = numPolls t (elapsed + 1000) + 1 := by
  unfold numPolls
  omega

/-- Full characterization of the supervision loop in terms of the STATUS
bytes the oracle returns, given enough fuel that the time bound, not the
fuel, ends the loop. -/
theorem pollLoop_eq (bus : Bus) (t : Nat) :
    ∀ fuel elapsed s, t ≤ elapsed + 1000 * fuel →
    pollLoop bus t fuel elapsed s =
      (match firstFlagged bus s.nCalls (numPolls t elapsed) with
       | some k =>
         if (pollStatus bus (s.nCalls + k) &&& 0x10) != 0 then
           (WriteResult.maxRetries, flushTX bus (clearStatus bus
             ⟨s.nCalls + k + 1,
              s.trace ++ pollsTrace k ++ [Action.spi statusReadCmd]⟩))
         else
           (WriteResult.ok, clearStatus bus
             ⟨s.nCalls + k + 1,
              s.trace ++ pollsTrace k ++ [Action.spi statusReadCmd]⟩)
       | none =>
         (WriteResult.timeout, flushTX bus (clearStatus bus
           ⟨s.nCalls + numPolls t elapsed,
            s.trace ++ pollsTrace (numPolls t elapsed)⟩))) := by
  intro fuel
  induction fuel with
  | zero =>
    intro elapsed s h
    rw [numPolls_zero t elapsed (by omega)]
    simp [pollLoop, firstFlagged, pollsTrace]
  | succ fuel ih =>
    intro elapsed s h
    by_cases ht : t ≤ elapsed
    · rw [numPolls_zero t elapsed ht]
      simp [pollLoop, ht, firstFlagged, pollsTrace]
    · push_neg at ht
      rw [numPolls_succ t elapsed ht]
      simp only [pollLoop, readRegister_eq]
      rw [if_neg (by omega)]
      simp only [firstFlagged, pollStatus]
      by_cases hf : (regValue bus s.nCalls rSTATUS &&& 0x30) != 0
      · simp [hf, pollsTrace, statusReadCmd]
      · rw [if_neg hf, if_neg (by simpa using hf)]
        rw [show sleep (⟨s.nCalls + 1,
              s.trace ++ [Action.spi [rSTATUS, cNOP]]⟩ : DevState) 1000 =
            ⟨s.nCalls + 1, s.trace ++
              [Action.spi [rSTATUS, cNOP], Action.sleepUs 1000]⟩ from by
          simp [sleep]]
        rw [ih (elapsed + 1000) _ (by omega)]
        cases hff : firstFlagged bus (s.nCalls + 1) (numPolls t (elapsed + 1000)) with
        | none =>
          simp [hff, pollsTrace, statusReadCmd, pollStatus, List.append_assoc,
            Nat.add_assoc, Nat.add_comm, Nat.add_left_comm]
        | some k0 =>
          simp [hff, pollsTrace, statusReadCmd, pollStatus, List.append_assoc,
            Nat.add_assoc, Nat.add_comm, Nat.add_left_comm]

/-- The loop only ever appends to the trace. -/
theorem pollLoop_trace (bus : Bus) (t : Nat) (fuel elapsed : Nat) (s : DevState) :
    ∃ tl, ((pollLoop bus t fuel elapsed s).2).trace = s.trace ++ tl := by
  induction fuel generalizing elapsed s with
  | zero =>
    refine ⟨[Action.spi clearStatusCmd, Action.spi [cFLUSH_TX]], ?_⟩
    simp [pollLoop, flushTX, clearStatus, writeRegister, spiTransfer, clearStatusCmd]
  | succ fuel ih =>
    simp only [pollLoop, readRegister_eq]
    by_cases ht : t ≤ elapsed
    · refine ⟨[Action.spi clearStatusCmd, Action.spi [cFLUSH_TX]], ?_⟩
      simp [ht, flushTX, clearStatus, writeRegister, spiTransfer, clearStatusCmd]
    · rw [if_neg ht]
      by_cases hf : (regValue bus s.nCalls rSTATUS &&& 0x30) != 0
      · by_cases hm : (regValue bus s.nCalls rSTATUS &&& 0x10) != 0
        · refine ⟨[Action.spi [rSTATUS, cNOP], Action.spi clearStatusCmd,
            Action.spi [cFLUSH_TX]], ?_⟩
          simp [hf, hm, flushTX, clearStatus, writeRegister, spiTransfer,
            clearStatusCmd]
        · refine ⟨[Action.spi [rSTATUS, cNOP], Action.spi clearStatusCmd], ?_⟩
          simp [hf, hm, clearStatus, writeRegister, spiTransfer, clearStatusCmd]
      · have hs1 : sleep (⟨s.nCalls + 1,
            s.trace ++ [Action.spi [rSTATUS, cNOP]]⟩ : DevState) 1000 =
            ⟨s.nCalls + 1,
             s.trace ++ [Action.spi [rSTATUS, cNOP], Action.sleepUs 1000]⟩ := by
          simp [sleep]
        obtain ⟨tl, htl⟩ := ih (elapsed + 1000)
          ⟨s.nCalls + 1, s.trace ++ [Action.spi [rSTATUS, cNOP], Action.sleepUs 1000]⟩
        rw [if_neg hf, hs1, htl]
        exact ⟨_, List.append_assoc _ _ _⟩

theorem stopListening_eq (bus : Bus) (s : DevState) :
    stopListening bus s =
      ⟨s.nCalls + 2,
       s.trace ++ [Action.ce false, Action.spi [rCONFIG, cNOP],
         Action.spi [wREGISTER ||| rCONFIG, regValue bus s.nCalls rCONFIG &&& 0xFE]]⟩ := by
  simp [stopListening, readRegister_eq, writeRegister, spiTransfer, setCE]

theorem startListening_eq (bus : Bus) (s : DevState) :
    startListening bus s =
      ⟨s.nCalls + 4,
       s.trace ++ [Action.ce false, Action.spi [rCONFIG, cNOP],
         Action.spi [wREGISTER ||| rCONFIG, regValue bus s.nCalls rCONFIG ||| 0x01],
         Action.ce true, Action.sleepUs 130, Action.spi clearStatusCmd,
         Action.spi [cFLUSH_RX]]⟩ := by
  simp [startListening, readRegister_eq, writeRegister, spiTransfer, setCE, sleep,
    clearStatus, flushRX, clearStatusCmd]

theorem setTargetAddress_eq (bus : Bus) (s : DevState) (addr : List Nat) :
    setTargetAddress bus s addr =
      ⟨s.nCalls + 2,
       s.trace ++ [Action.ce false,
         Action.spi ((wREGISTER ||| rTX_ADDR) :: addr),
         Action.spi ((wREGISTER ||| rRX_ADDR_P0) :: addr),
         Action.sleepUs 1000]⟩ := by
  simp [setTargetAddress, writeRegisterN, spiTransfer, setCE, sleep]

theorem loadAndPulse_eq (bus : Bus) (cfg : Config) (s : DevState)
    (data : List Nat) (noAck : Bool) :
    loadAndPulse bus cfg s data noAck =
      ⟨s.nCalls + 3,
       s.trace ++ [Action.ce false, Action.spi [rCONFIG, cNOP],
         Action.spi [wREGISTER ||| rCONFIG, regValue bus s.nCalls rCONFIG &&& 0xFE],
         Action.spi (if cfg.EnableDynamicPayload
           then (if noAck then cW_TX_PAYLOAD_NOACK else cW_TX_PAYLOAD) :: data
           else (if noAck then cW_TX_PAYLOAD_NOACK else cW_TX_PAYLOAD) ::
             fixedPayload cfg.PayloadSize data),
         Action.ce true, Action.sleepUs 15, Action.ce false]⟩ := by
  cases hcd : cfg.EnableDynamicPayload <;>
    simp [loadAndPulse, stopListening_eq, spiTransfer, setCE, sleep, hcd]

theorem write_trace (bus : Bus) (cfg : Config) (s : DevState)
    (data : List Nat) (noAck : Bool) :
    ∃ tl, ((write bus cfg s data noAck).2).trace = s.trace ++ tl := by
  unfold write
  obtain ⟨tl1, h1⟩ := pollLoop_trace bus (timeoutUsOf cfg) (timeoutUsOf cfg) 0
    (loadAndPulse bus cfg s data noAck)
  rw [h1, loadAndPulse_eq]
  exact ⟨_, List.append_assoc _ _ _⟩

/-- Below the payload-size limit, both transmit variants finish by
re-entering RX mode via `startListening`. -/
theorem transmitWith_snd (noAck : Bool) (bus : Bus) (cfg : Config)
    (s : DevState) (addr p : List Nat) (h : p.length ≤ txLimit cfg) :
    (transmitWith noAck bus cfg s addr p).2 =
      startListening bus
        (write bus cfg (setTargetAddress bus (stopListening bus s) addr) p noAck).2 := by
  unfold transmitWith
  rw [if_neg (by omega)]
  rcases hw : write bus cfg (setTargetAddress bus (stopListening bus s) addr) p noAck
    with ⟨r, s3⟩
  cases r <;> simp [hw]

theorem ping_snd (bus : Bus) (cfg : Config) (s : DevState) (addr : List Nat) :
    (Ping bus cfg s addr).2 =
      (write bus cfg (setTargetAddress bus s addr) [0x00] false).2 := by
  unfold Ping
  rcases hw : write bus cfg (setTargetAddress bus s addr) [0x00] false with ⟨r, s3⟩
  cases r <;> simp [hw]

theorem mem_setTargetAddress_tx (bus : Bus) (s : DevState) (addr : List Nat) :
    Action.spi ((wREGISTER ||| rTX_ADDR) :: addr) ∈
      (setTargetAddress bus s addr).trace ∧
    Action.spi ((wREGISTER ||| rRX_ADDR_P0) :: addr) ∈
      (setTargetAddress bus s addr).trace := by
  rw [setTargetAddress_eq]
  constructor <;> simp

/-- Membership in the target-setting segment survives `write` and the
final `startListening`. -/
theorem write_then_listen_mem (noAck : Bool) (bus : Bus) (cfg : Config)
    (s2 : DevState) (p : List Nat) (x : Action) (hx : x ∈ s2.trace) :
    x ∈ (startListening bus (write bus cfg s2 p noAck).2).trace := by
  obtain ⟨tl, htl⟩ := write_trace bus cfg s2 p noAck
  rw [startListening_eq]
  show x ∈ ((write bus cfg s2 p noAck).2).trace ++ _
  rw [htl]
  exact List.mem_append_left _ (List.mem_append_left _ hx)

theorem available_eq (bus : Bus) (s : DevState) :
    available bus s =
      (((regValue bus s.nCalls rSTATUS >>> 1) &&& 0x07) != 7,
       ⟨s.nCalls + 1, s.trace ++ [Action.spi statusReadCmd]⟩) := rfl

theorem getDynamicPayloadSize_eq (bus : Bus) (s : DevState) :
    getDynamicPayloadSize bus s =
      (if 32 < widthValue bus s.nCalls then 0 else widthValue bus s.nCalls,
       if 32 < widthValue bus s.nCalls
         then ⟨s.nCalls + 2, s.trace ++ [Action.spi widthCmd, Action.spi [cFLUSH_RX]]⟩
         else ⟨s.nCalls + 1, s.trace ++ [Action.spi widthCmd]⟩) := by
  unfold getDynamicPayloadSize widthValue
  simp only [widthCmd]
  cases h : (spiResponse bus s.nCalls [cR_RX_PL_WID, cNOP]).2 with
  | nil =>
    simp [spiTransfer, h]
  | cons b l =>
    by_cases hb : 32 < b <;>
      simp [spiTransfer, flushRX, h, hb]

/- ------------------------------------------------------------------ -/
/- Claims -/
/- ------------------------------------------------------------------ -/

/-- C4 counterexample: the claim says construction returns an error when
the auto-retransmit count exceeds 15 or the delay is invalid; in fact
`newDriver` accepts count 16 (masking it to 0 in SETUP_RETR) and delay
300 µs (encoding it like 250 µs), succeeding in both cases. -/
theorem newDriver_accepts_invalid_retr :
    isOkInit (newDriver busZero cBadCount) = true ∧
    Action.spi [wREGISTER ||| rSETUP_RETR, 0x00] ∈
      (okState (newDriver busZero cBadCount)).trace ∧
    isOkInit (newDriver busZero cBadDelay) = true ∧
    Action.spi [wREGISTER ||| rSETUP_RETR, 0x03] ∈
      (okState (newDriver busZero cBadDelay)).trace := by
  decide

/-- C4 amended: construction validates exactly the address width (must be
3..5 after zero-defaulting) and the channel (≤ 124), returning an error
with no device; the auto-retransmit delay and count are not validated at
construction — they are masked into the 4-bit SETUP_RETR fields and
construction succeeds regardless of their values. -/
theorem newDriver_validation (bus : Bus) (c : Config) :
    ((applyDefaults c).AddressWidth < 3 ∨ 5 < (applyDefaults c).AddressWidth →
      newDriver bus c = Except.error InitError.invalidAddressWidth) ∧
    (3 ≤ (applyDefaults c).AddressWidth → (applyDefaults c).AddressWidth ≤ 5 →
      124 < (applyDefaults c).ChannelNumber →
      newDriver bus c = Except.error InitError.invalidChannel) ∧
    (3 ≤ (applyDefaults c).AddressWidth → (applyDefaults c).AddressWidth ≤ 5 →
      (applyDefaults c).ChannelNumber ≤ 124 →
      ∃ s, newDriver bus c = Except.ok (applyDefaults c, s)) := by
  refine ⟨?_, ?_, ?_⟩
  · intro h
    unfold newDriver
    rw [if_pos h]
  · intro h3 h5 hch
    unfold newDriver
    rw [if_neg (by omega), if_pos hch]
  · intro h3 h5 hch
    exact ⟨_, newDriver_ok bus c h3 h5 hch⟩

/-- C4 witness: instances of the amended claim — width 2 is rejected,
channel 200 is rejected, and a fully valid config is accepted. -/
theorem newDriver_validation_witness :
    newDriver busZero ⟨76, [1, 2, 3, 4, 5], false, 32, true, 1, 3, 250, 3, 2, 2⟩ =
      Except.error InitError.invalidAddressWidth ∧
    newDriver busZero ⟨200, [1, 2, 3, 4, 5], false, 32, true, 1, 3, 250, 3, 5, 2⟩ =
      Except.error InitError.invalidChannel ∧
    ∃ s, newDriver busZero c0 = Except.ok (applyDefaults c0, s) :=
  ⟨(newDriver_validation busZero _).1 (by decide),
   (newDriver_validation busZero _).2.1 (by decide) (by decide) (by decide),
   (newDriver_validation busZero c0).2.2 (by decide) (by decide) (by decide)⟩

/-- C7: the construction trace writes SETUP_AW = width − 2, SETUP_RETR =
((delay/250 − 1) << 4) | count (for an in-range delay and count), and
RF_SETUP with the data-rate bits 1 Mbps = 0, 2 Mbps = bit 3, 250 kbps =
bit 5 and the PA value 0..3 in bits 2:1. -/
theorem init_register_encodings (bus : Bus) (c cfg : Config) (s : DevState)
    (h : newDriver bus c = Except.ok (cfg, s))
    (hd1 : 250 ≤ cfg.AutoRetransmitDelay) (hd2 : cfg.AutoRetransmitDelay ≤ 4000)
    (hcnt : cfg.AutoRetransmitCount ≤ 15) :
    Action.spi [wREGISTER ||| rSETUP_AW, cfg.AddressWidth - 2] ∈ s.trace ∧
    Action.spi [wREGISTER ||| rSETUP_RETR,
      ((cfg.AutoRetransmitDelay / 250 - 1) <<< 4) ||| cfg.AutoRetransmitCount]
      ∈ s.trace ∧
    Action.spi [wREGISTER ||| rRF_SETUP, rfSetupValue cfg.DataRate cfg.PALevel]
      ∈ s.trace ∧
    rateBits dataRate1mbps = 0 ∧ rateBits dataRate2mbps = 0x08 ∧
    rateBits dataRate250kbps = 0x20 ∧
    (∀ pa : Nat, pa ≤ 3 → paBits pa = 2 * pa) := by
  obtain ⟨hcfg, hs, -, -, -⟩ := newDriver_ok_inv bus c cfg s h
  subst hs
  refine ⟨by simp [initTrace], ?_, by simp [initTrace], rfl, rfl, rfl, ?_⟩
  · rw [← setupRetrValue_valid cfg.AutoRetransmitDelay cfg.AutoRetransmitCount hd1 hd2 hcnt]
    simp [initTrace]
  · intro pa hpa
    interval_cases pa <;> rfl

/-- C7 witness: the encodings hold on the concrete constructed device. -/
theorem init_register_encodings_witness :
    Action.spi [wREGISTER ||| rSETUP_AW, cfg0.AddressWidth - 2] ∈
      (okState (newDriver busZero c0)).trace ∧
    Action.spi [wREGISTER ||| rSETUP_RETR,
      ((cfg0.AutoRetransmitDelay / 250 - 1) <<< 4) ||| cfg0.AutoRetransmitCount]
      ∈ (okState (newDriver busZero c0)).trace ∧
    Action.spi [wREGISTER ||| rRF_SETUP, rfSetupValue cfg0.DataRate cfg0.PALevel]
      ∈ (okState (newDriver busZero c0)).trace ∧
    rateBits dataRate1mbps = 0 ∧ rateBits dataRate2mbps = 0x08 ∧
    rateBits dataRate250kbps = 0x20 ∧
    (∀ pa : Nat, pa ≤ 3 → paBits pa = 2 * pa) :=
  init_register_encodings busZero c0 cfg0 (okState (newDriver busZero c0))
    (by rfl) (by decide) (by decide) (by decide)

/-- C8: after any successful construction the effective auto-ack setting
is true (a caller-supplied false is coerced to true by the defaults step),
and EN_AA is written with pipes 0 and 1 enabled. -/
theorem auto_ack_forced (bus : Bus) (c cfg : Config) (s : DevState)
    (h : newDriver bus c = Except.ok (cfg, s)) :
    cfg.EnableAutoAck = true ∧
    Action.spi [wREGISTER ||| rEN_AA, 0x03] ∈ s.trace := by
  obtain ⟨hcfg, hs, -, -, -⟩ := newDriver_ok_inv bus c cfg s h
  subst hs
  have ha : cfg.EnableAutoAck = true := hcfg ▸ applyDefaults_EnableAutoAck c
  refine ⟨ha, ?_⟩
  simp [initTrace, ha]

/-- C8 witness: c0 carries EnableAutoAck = false, yet the constructed
config has it true and EN_AA is written as 0x03. -/
theorem auto_ack_forced_witness :
    (okConfig (newDriver busZero c0)).EnableAutoAck = true ∧
    Action.spi [wREGISTER ||| rEN_AA, 0x03] ∈
      (okState (newDriver busZero c0)).trace :=
  auto_ack_forced busZero c0 (okConfig (newDriver busZero c0))
    (okState (newDriver busZero c0)) (by rfl)

/-- C10: with dynamic payload disabled, a PayloadSize of 0 or above 32 is
silently replaced by 32 and construction still succeeds; with dynamic
payload enabled, PayloadSize is left exactly as supplied. -/
theorem payload_size_defaulting (bus : Bus) (c : Config)
    (h3 : 3 ≤ (applyDefaults c).AddressWidth)
    (h5 : (applyDefaults c).AddressWidth ≤ 5)
    (hch : (applyDefaults c).ChannelNumber ≤ 124) :
    (c.EnableDynamicPayload = false → (c.PayloadSize = 0 ∨ 32 < c.PayloadSize) →
      ∃ s, newDriver bus c = Except.ok (applyDefaults c, s) ∧
        (applyDefaults c).PayloadSize = 32) ∧
    (c.EnableDynamicPayload = true →
      (applyDefaults c).PayloadSize = c.PayloadSize) := by
  constructor
  · intro hdyn hps
    refine ⟨_, newDriver_ok bus c h3 h5 hch, ?_⟩
    rw [applyDefaults_PayloadSize, if_pos ⟨hdyn, hps⟩]
  · intro hdyn
    rw [applyDefaults_PayloadSize, if_neg (by simp [hdyn])]

/-- C3 counterexample: a failed bus transfer is not surfaced as an error;
a register read over a failing bus returns the default value 0 and is
indistinguishable from a successful read of 0. -/
theorem bus_failure_returns_default :
    (GetStatus failBus DevState.init).1 = 0 ∧
    (GetStatus failBus DevState.init).1 = (GetStatus busZero DevState.init).1 := by
  decide

/-- C3 amended: a failed bus transfer is swallowed: `spiTransfer` logs and
returns status 0 with no data, a register read returns the default 0, and
the transfer is not retried — exactly one attempt is recorded per call. -/
theorem bus_failure_swallowed (s : DevState) (data : List Nat) (reg : Nat) :
    spiTransfer failBus s data =
      ((0, []), ⟨s.nCalls + 1, s.trace ++ [Action.spi data]⟩) ∧
    (readRegister failBus s reg).1 = 0 :=
  ⟨rfl, rfl⟩

/-- C6 counterexample: the claim says every dynamic setter rejects
out-of-range input without writing a register; `SetDataRate 7` (valid
rates are 0..2) and `SetPALevel 9` (valid levels are 0..3) both succeed
and write RF_SETUP, with the unknown value falling through the switch. -/
theorem setters_accept_out_of_range :
    SetDataRate busZero cfg0 DevState.init 7 =
      (Except.ok { cfg0 with DataRate := 7 },
       ⟨1, [Action.spi [wREGISTER ||| rRF_SETUP, 0x06]]⟩) ∧
    SetPALevel busZero cfg0 DevState.init 9 =
      (Except.ok { cfg0 with PALevel := 9 },
       ⟨1, [Action.spi [wREGISTER ||| rRF_SETUP, 0x20]]⟩) :=
  ⟨rfl, rfl⟩

/-- C6 amended: SetChannel, SetAutoRetransmit and SetAddressWidth validate
their inputs, returning an invalid-argument error with no register write
and the state unchanged, and on valid input write the derived register and
update the cached config; SetDataRate and SetPALevel perform no
validation: any value is accepted, RF_SETUP is written (out-of-range
values fall through the encoding switch) and the cache updated. -/
theorem setters_validation (bus : Bus) (cfg : Config) (s : DevState)
    (channel rate level width delay count : Nat) :
    (124 < channel →
      SetChannel bus cfg s channel = (Except.error ArgError.invalidChannel, s)) ∧
    (channel ≤ 124 →
      SetChannel bus cfg s channel =
        (Except.ok { cfg with ChannelNumber := channel },
         writeRegister bus s rRF_CH channel)) ∧
    (SetDataRate bus cfg s rate =
      (Except.ok { cfg with DataRate := rate },
       writeRegister bus s rRF_SETUP (rfSetupValue rate cfg.PALevel))) ∧
    (SetPALevel bus cfg s level =
      (Except.ok { cfg with PALevel := level },
       writeRegister bus s rRF_SETUP (rfSetupValue cfg.DataRate level))) ∧
    (delay < 250 ∨ 4000 < delay ∨ delay % 250 ≠ 0 →
      SetAutoRetransmit bus cfg s delay count =
        (Except.error ArgError.invalidRetrDelay, s)) ∧
    (250 ≤ delay → delay ≤ 4000 → delay % 250 = 0 → 15 < count →
      SetAutoRetransmit bus cfg s delay count =
        (Except.error ArgError.invalidRetrCount, s)) ∧
    (250 ≤ delay → delay ≤ 4000 → delay % 250 = 0 → count ≤ 15 →
      SetAutoRetransmit bus cfg s delay count =
        (Except.ok { cfg with AutoRetransmitDelay := delay,
                              AutoRetransmitCount := count },
         writeRegister bus s rSETUP_RETR (((delay / 250 - 1) <<< 4) ||| count))) ∧
    (width < 3 ∨ 5 < width →
      SetAddressWidth bus cfg s width =
        (Except.error ArgError.invalidAddressWidth, s)) ∧
    (3 ≤ width → width ≤ 5 →
      SetAddressWidth bus cfg s width =
        (Except.ok { cfg with AddressWidth := width },
         writeRegister bus s rSETUP_AW (width - 2))) := by
  refine ⟨?_, ?_, rfl, rfl, ?_, ?_, ?_, ?_, ?_⟩
  · intro h
    unfold SetChannel
    rw [if_pos h]
  · intro h
    unfold SetChannel
    rw [if_neg (by omega)]
  · intro h
    unfold SetAutoRetransmit
    rw [if_pos h]
  · intro h1 h2 h3 h4
    unfold SetAutoRetransmit
    rw [if_neg (by omega), if_pos h4]
  · intro h1 h2 h3 h4
    unfold SetAutoRetransmit
    rw [if_neg (by omega), if_neg (by omega),
        setupRetrValue_valid delay count h1 h2 h4]
  · intro h
    unfold SetAddressWidth
    rw [if_pos h]
  · intro h1 h2
    unfold SetAddressWidth
    rw [if_neg (by omega)]

/-- C6 witness: concrete instances of the amended setter contract. -/
theorem setters_validation_witness :
    SetChannel busZero cfg0 DevState.init 200 =
      (Except.error ArgError.invalidChannel, DevState.init) ∧
    SetChannel busZero cfg0 DevState.init 88 =
      (Except.ok { cfg0 with ChannelNumber := 88 },
       writeRegister busZero DevState.init rRF_CH 88) ∧
    SetAutoRetransmit busZero cfg0 DevState.init 100 3 =
      (Except.error ArgError.invalidRetrDelay, DevState.init) ∧
    SetAutoRetransmit busZero cfg0 DevState.init 500 20 =
      (Except.error ArgError.invalidRetrCount, DevState.init) ∧
    SetAutoRetransmit busZero cfg0 DevState.init 500 10 =
      (Except.ok { cfg0 with AutoRetransmitDelay := 500, AutoRetransmitCount := 10 },
       writeRegister busZero DevState.init rSETUP_RETR (((500 / 250 - 1) <<< 4) ||| 10)) ∧
    SetAddressWidth busZero cfg0 DevState.init 9 =
      (Except.error ArgError.invalidAddressWidth, DevState.init) ∧
    SetAddressWidth busZero cfg0 DevState.init 4 =
      (Except.ok { cfg0 with AddressWidth := 4 },
       writeRegister busZero DevState.init rSETUP_AW (4 - 2)) :=
  ⟨(setters_validation busZero cfg0 DevState.init 200 0 0 0 250 0).1 (by omega),
   (setters_validation busZero cfg0 DevState.init 88 0 0 0 250 0).2.1 (by omega),
   (setters_validation busZero cfg0 DevState.init 0 0 0 0 100 3).2.2.2.2.1
     (by omega),
   (setters_validation busZero cfg0 DevState.init 0 0 0 0 500 20).2.2.2.2.2.1
     (by omega) (by omega) (by omega) (by omega),
   (setters_validation busZero cfg0 DevState.init 0 0 0 0 500 10).2.2.2.2.2.2.1
     (by omega) (by omega) (by omega) (by omega),
   (setters_validation busZero cfg0 DevState.init 0 0 0 9 250 0).2.2.2.2.2.2.2.1
     (by omega),
   (setters_validation busZero cfg0 DevState.init 0 0 0 4 250 0).2.2.2.2.2.2.2.2
     (by omega) (by omega)⟩

/-- C1 counterexample: with static payload size 32, a 33-byte payload
makes Transmit return the payload-too-large error while the final trace
contains no CE-high transition and no RX flush — `startListening` was not
invoked before returning, and the radio is left out of RX mode. -/
theorem transmit_oversized_no_relisten :
    (Transmit busZero cfg0 DevState.init addr15 p33).1 =
      Except.error TxError.payloadTooLarge ∧
    Action.ce true ∉ (Transmit busZero cfg0 DevState.init addr15 p33).2.trace ∧
    Action.spi [cFLUSH_RX] ∉ (Transmit busZero cfg0 DevState.init addr15 p33).2.trace := by
  decide

/-- C1 amended: Transmit and TransmitNoAck re-enter RX mode via
`startListening` on the success, max-retries and timeout exits, but on the
payload-too-large validation path they return the error right after
`stopListening`, leaving the radio out of RX mode. -/
theorem transmit_relisten (bus : Bus) (cfg : Config) (s : DevState)
    (addr p : List Nat) :
    (p.length ≤ txLimit cfg →
      (∃ s2, (Transmit bus cfg s addr p).2 = startListening bus s2) ∧
      (∃ s2, (TransmitNoAck bus cfg s addr p).2 = startListening bus s2)) ∧
    (txLimit cfg < p.length →
      Transmit bus cfg s addr p =
        (Except.error TxError.payloadTooLarge, stopListening bus s) ∧
      TransmitNoAck bus cfg s addr p =
        (Except.error TxError.payloadTooLarge, stopListening bus s)) := by
  constructor
  · intro h
    exact ⟨⟨_, transmitWith_snd false bus cfg s addr p h⟩,
           ⟨_, transmitWith_snd true bus cfg s addr p h⟩⟩
  · intro h
    constructor <;>
      (simp only [Transmit, TransmitNoAck, transmitWith]; rw [if_pos h])

/-- C1 witness: a 1-byte payload re-enters RX on both variants; the
33-byte payload returns the error with only `stopListening` performed. -/
theorem transmit_relisten_witness :
    ((∃ s2, (Transmit busZero cfg0 DevState.init addr15 [1]).2 =
        startListening busZero s2) ∧
     (∃ s2, (TransmitNoAck busZero cfg0 DevState.init addr15 [1]).2 =
        startListening busZero s2)) ∧
    (Transmit busZero cfg0 DevState.init addr15 p33 =
       (Except.error TxError.payloadTooLarge, stopListening busZero DevState.init) ∧
     TransmitNoAck busZero cfg0 DevState.init addr15 p33 =
       (Except.error TxError.payloadTooLarge, stopListening busZero DevState.init)) :=
  ⟨(transmit_relisten busZero cfg0 DevState.init addr15 [1]).1 (by decide),
   (transmit_relisten busZero cfg0 DevState.init addr15 p33).2 (by decide)⟩

/-- C2: the supervision timeout is delay × count + 50 ms; after
`loadAndPulse` (payload loaded, CE pulsed) the loop polls STATUS with a
1 ms sleep between polls (visible as `pollsTrace`); the first poll whose
STATUS has MAX_RT set ends with clear-STATUS, FLUSH_TX and a max-retries
error; one with TX_DS (and without MAX_RT) ends with clear-STATUS and
success; if no poll shows a flag before the timeout elapses the loop ends
with clear-STATUS, FLUSH_TX and a timeout error. -/
theorem transmit_supervision (bus : Bus) (cfg : Config) (s : DevState)
    (data : List Nat) (noAck : Bool) :
    timeoutUsOf cfg = cfg.AutoRetransmitDelay * cfg.AutoRetransmitCount + 50000 ∧
    write bus cfg s data noAck =
      (match firstFlagged bus (loadAndPulse bus cfg s data noAck).nCalls
          (numPolls (timeoutUsOf cfg) 0) with
       | some k =>
         if (pollStatus bus ((loadAndPulse bus cfg s data noAck).nCalls + k)
              &&& 0x10) != 0 then
           (WriteResult.maxRetries, flushTX bus (clearStatus bus
             ⟨(loadAndPulse bus cfg s data noAck).nCalls + k + 1,
              (loadAndPulse bus cfg s data noAck).trace ++ pollsTrace k ++
                [Action.spi statusReadCmd]⟩))
         else
           (WriteResult.ok, clearStatus bus
             ⟨(loadAndPulse bus cfg s data noAck).nCalls + k + 1,
              (loadAndPulse bus cfg s data noAck).trace ++ pollsTrace k ++
                [Action.spi statusReadCmd]⟩)
       | none =>
         (WriteResult.timeout, flushTX bus (clearStatus bus
           ⟨(loadAndPulse bus cfg s data noAck).nCalls +
              numPolls (timeoutUsOf cfg) 0,
            (loadAndPulse bus cfg s data noAck).trace ++
              pollsTrace (numPolls (timeoutUsOf cfg) 0)⟩))) :=
  ⟨rfl, pollLoop_eq bus (timeoutUsOf cfg) (timeoutUsOf cfg) 0
     (loadAndPulse bus cfg s data noAck) (by omega)⟩

/-- C9: `setTargetAddress` writes TX_ADDR and immediately mirrors the same
address bytes into RX_ADDR_P0; Transmit and TransmitNoAck (whenever the
payload is within the limit, so that the target is set at all) and Ping
all leave both writes in their trace. -/
theorem tx_addr_mirrored (bus : Bus) (cfg : Config) (s : DevState)
    (addr p : List Nat) :
    (setTargetAddress bus s addr).trace =
      s.trace ++ [Action.ce false,
        Action.spi ((wREGISTER ||| rTX_ADDR) :: addr),
        Action.spi ((wREGISTER ||| rRX_ADDR_P0) :: addr),
        Action.sleepUs 1000] ∧
    (p.length ≤ txLimit cfg →
      (Action.spi ((wREGISTER ||| rTX_ADDR) :: addr) ∈
          (Transmit bus cfg s addr p).2.trace ∧
       Action.spi ((wREGISTER ||| rRX_ADDR_P0) :: addr) ∈
          (Transmit bus cfg s addr p).2.trace) ∧
      (Action.spi ((wREGISTER ||| rTX_ADDR) :: addr) ∈
          (TransmitNoAck bus cfg s addr p).2.trace ∧
       Action.spi ((wREGISTER ||| rRX_ADDR_P0) :: addr) ∈
          (TransmitNoAck bus cfg s addr p).2.trace)) ∧
    (Action.spi ((wREGISTER ||| rTX_ADDR) :: addr) ∈
        (Ping bus cfg s addr).2.trace ∧
     Action.spi ((wREGISTER ||| rRX_ADDR_P0) :: addr) ∈
        (Ping bus cfg s addr).2.trace) := by
  refine ⟨by rw [setTargetAddress_eq], ?_, ?_⟩
  · intro h
    have hmem := mem_setTargetAddress_tx bus (stopListening bus s) addr
    have e1 : (Transmit bus cfg s addr p).2 =
        startListening bus
          (write bus cfg (setTargetAddress bus (stopListening bus s) addr) p false).2 :=
      transmitWith_snd false bus cfg s addr p h
    have e2 : (TransmitNoAck bus cfg s addr p).2 =
        startListening bus
          (write bus cfg (setTargetAddress bus (stopListening bus s) addr) p true).2 :=
      transmitWith_snd true bus cfg s addr p h
    rw [e1, e2]
    exact ⟨⟨write_then_listen_mem false bus cfg _ p _ hmem.1,
            write_then_listen_mem false bus cfg _ p _ hmem.2⟩,
           ⟨write_then_listen_mem true bus cfg _ p _ hmem.1,
            write_then_listen_mem true bus cfg _ p _ hmem.2⟩⟩
  · have hmem := mem_setTargetAddress_tx bus s addr
    rw [ping_snd]
    obtain ⟨tl, htl⟩ := write_trace bus cfg (setTargetAddress bus s addr) [0x00] false
    rw [htl]
    exact ⟨List.mem_append_left _ hmem.1, List.mem_append_left _ hmem.2⟩

/-- C9 witness: the mirror property at a concrete address and payload. -/
theorem tx_addr_mirrored_witness :
    (setTargetAddress busZero DevState.init addr15).trace =
      DevState.init.trace ++ [Action.ce false,
        Action.spi ((wREGISTER ||| rTX_ADDR) :: addr15),
        Action.spi ((wREGISTER ||| rRX_ADDR_P0) :: addr15),
        Action.sleepUs 1000] ∧
    ((Action.spi ((wREGISTER ||| rTX_ADDR) :: addr15) ∈
        (Transmit busZero cfg0 DevState.init addr15 [2]).2.trace ∧
      Action.spi ((wREGISTER ||| rRX_ADDR_P0) :: addr15) ∈
        (Transmit busZero cfg0 DevState.init addr15 [2]).2.trace) ∧
     (Action.spi ((wREGISTER ||| rTX_ADDR) :: addr15) ∈
        (TransmitNoAck busZero cfg0 DevState.init addr15 [2]).2.trace ∧
      Action.spi ((wREGISTER ||| rRX_ADDR_P0) :: addr15) ∈
        (TransmitNoAck busZero cfg0 DevState.init addr15 [2]).2.trace)) ∧
    (Action.spi ((wREGISTER ||| rTX_ADDR) :: addr15) ∈
        (Ping busZero cfg0 DevState.init addr15).2.trace ∧
     Action.spi ((wREGISTER ||| rRX_ADDR_P0) :: addr15) ∈
        (Ping busZero cfg0 DevState.init addr15).2.trace) := by
  have h := tx_addr_mirrored busZero cfg0 DevState.init addr15 [2]
  exact ⟨h.1, h.2.1 (by decide), h.2.2⟩

/-- C5 counterexample: when R_RX_PL_WID reports width 0 the claim says
Receive flushes the RX FIFO and clears STATUS; in fact it returns no data
without issuing FLUSH_RX and without clearing STATUS. -/
theorem receive_width_zero_no_flush :
    (Receive busW0 cDyn77 DevState.init).1 = none ∧
    Action.spi [cFLUSH_RX] ∉ (Receive busW0 cDyn77 DevState.init).2.trace ∧
    Action.spi clearStatusCmd ∉ (Receive busW0 cDyn77 DevState.init).2.trace := by
  decide

/-- C5 amended: in dynamic-payload mode the non-blocking Receive returns
no data when STATUS bits 3:1 equal 0b111; when the reported width exceeds
32 it flushes the RX FIFO and returns no data; when the reported width is
0 it returns no data WITHOUT flushing the RX FIFO or clearing STATUS;
otherwise it reads exactly width bytes with R_RX_PAYLOAD and clears
STATUS. -/
theorem receive_dynamic (bus : Bus) (cfg : Config) (s : DevState)
    (hdyn : cfg.EnableDynamicPayload = true) :
    (((pollStatus bus s.nCalls >>> 1) &&& 0x07) = 7 →
      Receive bus cfg s =
        (none, ⟨s.nCalls + 1, s.trace ++ [Action.spi statusReadCmd]⟩)) ∧
    (((pollStatus bus s.nCalls >>> 1) &&& 0x07) ≠ 7 →
      (32 < widthValue bus (s.nCalls + 1) →
        Receive bus cfg s =
          (none, ⟨s.nCalls + 3, s.trace ++ [Action.spi statusReadCmd,
            Action.spi widthCmd, Action.spi [cFLUSH_RX]]⟩)) ∧
      (widthValue bus (s.nCalls + 1) = 0 →
        Receive bus cfg s =
          (none, ⟨s.nCalls + 2, s.trace ++ [Action.spi statusReadCmd,
            Action.spi widthCmd]⟩)) ∧
      (0 < widthValue bus (s.nCalls + 1) → widthValue bus (s.nCalls + 1) ≤ 32 →
        Receive bus cfg s =
          (some (spiResponse bus (s.nCalls + 2)
             (cR_RX_PAYLOAD :: List.replicate (widthValue bus (s.nCalls + 1)) cNOP)).2,
           ⟨s.nCalls + 4, s.trace ++ [Action.spi statusReadCmd, Action.spi widthCmd,
             Action.spi (cR_RX_PAYLOAD ::
               List.replicate (widthValue bus (s.nCalls + 1)) cNOP),
             Action.spi clearStatusCmd]⟩))) := by
  have hR : Receive bus cfg s = readDynamic bus s := by
    simp [Receive, hdyn]
  rw [hR]
  simp only [pollStatus]
  constructor
  · intro h7
    simp only [readDynamic, available_eq, h7]
    simp
  · intro hne
    have hav : (((regValue bus s.nCalls rSTATUS >>> 1) &&& 0x07) != 7) = true := by
      simpa using hne
    refine ⟨?_, ?_, ?_⟩
    · intro hw
      simp only [readDynamic, available_eq, hav, getDynamicPayloadSize_eq]
      simp [hw, List.append_assoc]
    · intro hw
      simp only [readDynamic, available_eq, hav, getDynamicPayloadSize_eq]
      simp [hw]
    · intro hw1 hw2
      have hnw : ¬ 32 < widthValue bus (s.nCalls + 1) := by omega
      have hne0 : ¬ widthValue bus (s.nCalls + 1) = 0 := by omega
      simp only [readDynamic, available_eq, hav, getDynamicPayloadSize_eq]
      simp [hnw, hne0, spiTransfer, clearStatus, writeRegister, clearStatusCmd,
        List.append_assoc]

/-- C5 witness: the empty, oversized-width and normal-read cases on
concrete buses. -/
theorem receive_dynamic_witness :
    Receive busEmpty cDyn77 DevState.init =
      (none, ⟨1, [Action.spi statusReadCmd]⟩) ∧
    Receive busBigW cDyn77 DevState.init =
      (none, ⟨3, [Action.spi statusReadCmd, Action.spi widthCmd,
        Action.spi [cFLUSH_RX]]⟩) ∧
    Receive busGood cDyn77 DevState.init =
      (some [104, 101, 108, 108, 111],
       ⟨4, [Action.spi statusReadCmd, Action.spi widthCmd,
         Action.spi (cR_RX_PAYLOAD :: List.replicate 5 cNOP),
         Action.spi clearStatusCmd]⟩) :=
  ⟨(receive_dynamic busEmpty cDyn77 DevState.init rfl).1 (by decide),
   ((receive_dynamic busBigW cDyn77 DevState.init rfl).2 (by decide)).1 (by decide),
   ((receive_dynamic busGood cDyn77 DevState.init rfl).2 (by decide)).2.2
     (by decide) (by decide)⟩

/-- C10 witness: PayloadSize 0 with static payload becomes 32 and the
constructor succeeds; PayloadSize 77 with dynamic payload stays 77. -/
theorem payload_size_defaulting_witness :
    (∃ s, newDriver busZero cPS0 = Except.ok (applyDefaults cPS0, s) ∧
      (applyDefaults cPS0).PayloadSize = 32) ∧
    (applyDefaults cDyn77).PayloadSize = cDyn77.PayloadSize :=
  ⟨(payload_size_defaulting busZero cPS0 (by decide) (by decide) (by decide)).1
     rfl (Or.inl rfl),
   (payload_size_defaulting busZero cDyn77 (by decide) (by decide) (by decide)).2
     rfl⟩

end NRF24
